import Mathlib

/-!
# Verification of `remix-auth-magic-link` (`src/index.ts`)

Shallow embedding of `MagicLinkStrategy.authenticate` and of the parts of the
`jose` library (v6) that it calls: `SignJWT` with `setIssuedAt` /
`setExpirationTime` / `sign`, and `jwtVerify` with `clockTolerance` and
`maxTokenAge`.

Modelling decisions, all taken from the sources:
* JS object payloads become association lists `List (String × ClaimVal)` with
  JS spread/`Object.fromEntries` semantics (later duplicate keys overwrite the
  value in place, first occurrence keeps its position).
* Timestamps are `Int` seconds since the UNIX epoch, because the jose checks
  compute `now - tolerance` and `age - tolerance`, which may be negative.
* The HMAC-SHA-256 signature is idealised as the pair (key bytes, signed
  payload); verification recomputes and compares.  This makes the MAC
  collision-free, which is the standard symbolic model of a MAC.
* `jose.SignJWT.setExpirationTime` receives a `number` in the source; per the
  jose API a numeric argument is used *directly* as the `exp` claim value (an
  absolute UNIX timestamp), not added to the current time.  The model follows
  jose faithfully here.
* Compact JWS serialisation and base64url coding are injective encodings
  external to the repository; they are supplied as an explicit environment
  (`JoseEnv`) of string coders, quantified over in the theorems.
-/

namespace MagicLink

/-- A JS value that can appear in a JWT claims set in this system: form fields
are strings, the timing claims are numbers. -/
inductive ClaimVal where
  | str (s : String)
  | num (n : Int)
deriving DecidableEq, Repr

/-- A JS object (claims set / parsed payload): association list with unique
keys, in insertion order. -/
abbrev Payload := List (String × ClaimVal)

/-- Decoded form data: string keys to string values (entries of `FormData`). -/
abbrev FormData := List (String × String)

/-- Raw key bytes (`crypto.randomBytes(32)` produces 32 of them). -/
abbrev Bytes := List Nat

/-- JS object update `{...p, k: v}`: if `k` is present its value is replaced in
place, otherwise the pair is appended at the end. -/
def setClaim : Payload → String → ClaimVal → Payload
  | [], k, v => [(k, v)]
  | (k', v') :: rest, k, v =>
      if k' = k then (k, v) :: rest else (k', v') :: setClaim rest k v

/-- `Object.fromEntries(form)`: fold the entries into an object, later values
for the same key overwriting earlier ones. -/
def fromEntries (form : FormData) : Payload :=
  form.foldl (fun p kv => setClaim p kv.1 (.str kv.2)) []

/-- Look a claim up in a payload (JS property access). -/
def getClaim (p : Payload) (k : String) : Option ClaimVal :=
  (p.find? (fun kv => kv.1 = k)).map (·.2)

/-- Numeric claim lookup: `some n` when the claim is present and a number. -/
def getNum (p : Payload) (k : String) : Option Int :=
  match getClaim p k with
  | some (.num n) => some n
  | _ => none

/-- Strategy configuration: `{ expiresIn?: number }` (seconds). -/
structure Options where
  expiresIn : Option Int := none
deriving DecidableEq, Repr

/-- `this.options.expiresIn || 5 * 60`: JS `||` falls through to the default
`300` exactly when `expiresIn` is absent or `0` (the only falsy number a
configuration can hold here). -/
def effExpiresIn (o : Options) : Int :=
  match o.expiresIn with
  | some e => if e = 0 then 300 else e
  | none => 300

/-- The idealised HS256 MAC over the serialised claims set: tag = (key, data).
Verification recomputes the tag and compares. -/
def hmacSign (key : Bytes) (p : Payload) : Bytes × Payload := (key, p)

/-- A signed JWT (the structured content of a compact JWS with the fixed
header `{alg: "HS256", typ: "JWT"}`). -/
structure Jwt where
  payload : Payload
  sig : Bytes × Payload
deriving DecidableEq, Repr

/-- The Issuer's token construction (lines 37–41 of `index.ts`):
`new SignJWT(Object.fromEntries(form)).setProtectedHeader(...).setIssuedAt()
.setExpirationTime(this.options.expiresIn || 5 * 60).sign(key)`.
`setIssuedAt()` sets `iat` to the current time; `setExpirationTime` with a
numeric argument sets `exp` to that number directly (jose treats a `number`
as an absolute UNIX timestamp). -/
def signJWT (form : FormData) (now : Int) (opts : Options) (key : Bytes) : Jwt :=
  let p := setClaim (setClaim (fromEntries form) "iat" (.num now))
    "exp" (.num (effExpiresIn opts))
  { payload := p, sig := hmacSign key p }

/-- The distinct error conditions `jose.jwtVerify` raises; the library throws
a different error class/message for each, and `authenticate` does not wrap
them. -/
inductive JoseError where
  | jwsInvalid
  | signatureVerificationFailed
  | missingRequiredClaim (c : String)
  | claimNotNumber (c : String)
  | nbfCheckFailed
  | expired
  | maxTokenAgeExceeded
  | iatInFuture
deriving DecidableEq, Repr

/-- `clockTolerance: 10` (seconds), fixed in the `jwtVerify` call. -/
def clockTolerance : Int := 10

/-- The `maxTokenAge` age-window checks of `jose.jwtVerify` on `iat`:
`age - tolerance > maxTokenAge` rejects a token too far in the past,
`age < -tolerance` rejects an `iat` in the future. -/
def claimsCheckAge (p : Payload) (now maxAge iat : Int) : Except JoseError Payload :=
  if now - iat - clockTolerance > maxAge then .error .maxTokenAgeExceeded
  else if now - iat < -clockTolerance then .error .iatInFuture
  else .ok p

/-- The `exp` check of `jose.jwtVerify` (`exp ≤ now - tolerance` rejects),
followed by the `maxTokenAge` checks. -/
def claimsCheckExp (p : Payload) (now maxAge iat : Int) : Except JoseError Payload :=
  match getClaim p "exp" with
  | some (.str _) => .error (.claimNotNumber "exp")
  | some (.num e) =>
      if e ≤ now - clockTolerance then .error .expired
      else claimsCheckAge p now maxAge iat
  | none => claimsCheckAge p now maxAge iat

/-- The claims-set validation of `jose.jwtVerify` after a successful JWS
signature check, specialised to the options used by the source
(`clockTolerance: 10`, `maxTokenAge: expiresIn || 300`): `maxTokenAge` makes
`iat` a required numeric claim; then the `nbf`, `exp` and token-age checks run
in jose's order. -/
def claimsCheck (p : Payload) (now : Int) (maxAge : Int) : Except JoseError Payload :=
  match getClaim p "iat" with
  | none => .error (.missingRequiredClaim "iat")
  | some (.str _) => .error (.claimNotNumber "iat")
  | some (.num iat) =>
    match getClaim p "nbf" with
    | some (.str _) => .error (.claimNotNumber "nbf")
    | some (.num nbf) =>
        if nbf > now + clockTolerance then .error .nbfCheckFailed
        else claimsCheckExp p now maxAge iat
    | none => claimsCheckExp p now maxAge iat

/-- `jose.jwtVerify` on an already-parsed token: first the JWS signature is
verified against the supplied key bytes, then the claims set is validated. -/
def jwtVerifyChecks (t : Jwt) (key : Bytes) (now : Int) (opts : Options) :
    Except JoseError Payload :=
  if t.sig = hmacSign key t.payload then
    claimsCheck t.payload now (effExpiresIn opts)
  else .error .signatureVerificationFailed

/-- The string-level codecs the source delegates to jose/Buffer for: compact
JWS parsing and serialisation, and base64url en/decoding of key bytes. -/
structure JoseEnv where
  parse : String → Option Jwt
  serialize : Jwt → String
  b64urlEncode : Bytes → String
  b64urlDecode : String → Bytes

/-- `jose.jwtVerify` on the compact token string: a string that is not a valid
compact JWS fails up front (`JWSInvalid`), otherwise the parsed token is
verified. -/
def jwtVerifyStr (env : JoseEnv) (s : String) (key : Bytes) (now : Int)
    (opts : Options) : Except JoseError Payload :=
  match env.parse s with
  | none => .error .jwsInvalid
  | some t => jwtVerifyChecks t key now opts

/-- The request surface `authenticate` reads: the `token` and `key` query
parameters (`searchParams.get`, `none` when absent) and the body decoded as
form data (`none` when `request.formData()` fails). -/
structure Request where
  tokenParam : Option String
  keyParam : Option String
  body : Option FormData
deriving DecidableEq, Repr

/-- JS truthiness of a `searchParams.get` result: `null` and `""` are falsy,
every other string is truthy. -/
def truthy : Option String → Bool
  | none => false
  | some s => s ≠ ""

/-- The outcome handed to the caller's verification callback: the source's
`VerifyOptions = GenerateOptions | ValidateOptions` union.  Only the generate
shape carries a `key` field (`ValidateOptions` declares `key?: never`). -/
inductive VerifyOptions where
  | generate (form : FormData) (token : String) (key : String)
  | validate (form : Payload) (token : String)
deriving DecidableEq, Repr

/-- Whether an outcome carries a `key` field. -/
def hasKeyField : VerifyOptions → Bool
  | .generate _ _ _ => true
  | .validate _ _ => false

/-- The failures `authenticate` can raise before or instead of invoking the
callback: the two malformed-request throws, a non-form-decodable body, and any
error propagated from `jose.jwtVerify`. -/
inductive AuthError where
  | missingKey
  | missingToken
  | encodingError
  | jose (e : JoseError)
deriving DecidableEq, Repr

/-- Issuer branch (lines 32–48): decode the body as form data, draw fresh key
bytes, sign the token, and pass `{form, token, key: base64url(key)}` to the
callback. -/
def generateBranch (env : JoseEnv) (opts : Options) (body : Option FormData)
    (now : Int) (freshKey : Bytes) : Except AuthError VerifyOptions :=
  match body with
  | none => .error .encodingError
  | some form =>
      .ok (.generate form (env.serialize (signJWT form now opts freshKey))
        (env.b64urlEncode freshKey))

/-- Verifier branch (lines 51–64): decode the `key` parameter from base64url,
run `jwtVerify` on the token string, and on success pass `{form: payload,
token: jwt}` — with no `key` field — to the callback. -/
def validateBranch (env : JoseEnv) (opts : Options) (s ks : String)
    (now : Int) : Except AuthError VerifyOptions :=
  match jwtVerifyStr env s (env.b64urlDecode ks) now opts with
  | .error e => .error (.jose e)
  | .ok payload => .ok (.validate payload s)

/-- `MagicLinkStrategy.authenticate` (lines 18–69).  The result is the
outcome handed to the caller's verification callback (`.ok`) or the error the
call throws (`.error`); the callback is invoked exactly on `.ok`.  `now` is
the current UNIX time and `freshKey` the bytes `crypto.randomBytes(32)`
returns on this invocation. -/
def authenticate (env : JoseEnv) (opts : Options) (req : Request) (now : Int)
    (freshKey : Bytes) : Except AuthError VerifyOptions :=
  let jwt := req.tokenParam
  let key := req.keyParam
  if truthy jwt && !truthy key then .error .missingKey
  else if !truthy jwt && truthy key then .error .missingToken
  else if !truthy jwt && !truthy key then
    generateBranch env opts req.body now freshKey
  else
    validateBranch env opts (jwt.getD "") (key.getD "") now

deriving instance DecidableEq for Except

/-! ## Concrete instances used to evaluate the model -/

/-- The token issued for the body `email=a@b.com` at UNIX time 0 with the
default configuration and key bytes `[0]`. -/
def jwt0 : Jwt := signJWT [("email", "a@b.com")] 0 {} [0]

/-- A concrete codec environment: `"tok"` is the compact serialisation of
`jwt0`, `"k64"` the base64url encoding of its key bytes; every other key
string decodes to different bytes. -/
def env0 : JoseEnv where
  parse := fun s => if s = "tok" then some jwt0 else none
  serialize := fun _ => "tok"
  b64urlEncode := fun _ => "k64"
  b64urlDecode := fun s => if s = "k64" then [0] else [9]

/-- The token issued for the body `email=a@b.com` at UNIX time 1700000000
(November 2023) with the default configuration and key bytes `[0]`. -/
def jwtC1 : Jwt := signJWT [("email", "a@b.com")] 1700000000 {} [0]

/-- Codec environment for `jwtC1`, analogous to `env0`. -/
def envC1 : JoseEnv where
  parse := fun s => if s = "tok" then some jwtC1 else none
  serialize := fun _ => "tok"
  b64urlEncode := fun _ => "k64"
  b64urlDecode := fun s => if s = "k64" then [0] else [9]

/-- The token issued for the body `email=a@b.com` at UNIX time 1000000 with
`expiresIn: 300` and key bytes `[0]`. -/
def jwtC2 : Jwt := signJWT [("email", "a@b.com")] 1000000 ⟨some 300⟩ [0]

/-- Codec environment for `jwtC2`, analogous to `env0`. -/
def envC2 : JoseEnv where
  parse := fun s => if s = "tok" then some jwtC2 else none
  serialize := fun _ => "tok"
  b64urlEncode := fun _ => "k64"
  b64urlDecode := fun s => if s = "k64" then [0] else [9]

/-! ## Helper lemmas -/

/-- The age-window check returns the payload it was given. -/
theorem claimsCheckAge_ok {p q : Payload} {now maxAge iat : Int}
    (h : claimsCheckAge p now maxAge iat = .ok q) : q = p := by
  unfold claimsCheckAge at h
  split at h
  · exact absurd h (by simp)
  · split at h
    · exact absurd h (by simp)
    · exact (Except.ok.injEq _ _ ▸ h).symm

/-- The `exp` check returns the payload it was given. -/
theorem claimsCheckExp_ok {p q : Payload} {now maxAge iat : Int}
    (h : claimsCheckExp p now maxAge iat = .ok q) : q = p := by
  unfold claimsCheckExp at h
  split at h
  · exact absurd h (by simp)
  · split at h
    · exact absurd h (by simp)
    · exact claimsCheckAge_ok h
  · exact claimsCheckAge_ok h

/-- The full claims-set validation returns the payload it was given. -/
theorem claimsCheck_ok {p q : Payload} {now maxAge : Int}
    (h : claimsCheck p now maxAge = .ok q) : q = p := by
  unfold claimsCheck at h
  split at h
  · exact absurd h (by simp)
  · exact absurd h (by simp)
  · split at h
    · exact absurd h (by simp)
    · split at h
      · exact absurd h (by simp)
      · exact claimsCheckExp_ok h
    · exact claimsCheckExp_ok h

/-- A successful `jwtVerify` hands back exactly the token's claims set. -/
theorem jwtVerifyChecks_ok {t : Jwt} {key : Bytes} {now : Int} {opts : Options}
    {q : Payload} (h : jwtVerifyChecks t key now opts = .ok q) : q = t.payload := by
  unfold jwtVerifyChecks at h
  split at h
  · exact claimsCheck_ok h
  · exact absurd h (by simp)

/-- Unfolding `getClaim` one entry at a time. -/
theorem getClaim_cons (k1 : String) (v1 : ClaimVal) (rest : Payload)
    (c : String) :
    getClaim ((k1, v1) :: rest) c = if k1 = c then some v1 else getClaim rest c := by
  by_cases hc : k1 = c <;> simp [getClaim, List.find?, hc]

/-- `setClaim` leaves every other key of the object unchanged. -/
theorem getClaim_setClaim_ne (p : Payload) (k c : String) (v : ClaimVal)
    (h : c ≠ k) : getClaim (setClaim p k v) c = getClaim p c := by
  induction p with
  | nil => simp [setClaim, getClaim_cons, getClaim, List.find?, Ne.symm h]
  | cons kv rest ih =>
      obtain ⟨k1, v1⟩ := kv
      by_cases hk : k1 = k
      · subst hk
        have hnc : k1 ≠ c := fun hh => h hh.symm
        simp [setClaim, getClaim_cons, hnc]
      · simp [setClaim, hk, getClaim_cons, ih]

/-- `authenticate` depends on the configuration only through the effective
`expiresIn || 300` value. -/
theorem authenticate_eff_congr (env : JoseEnv) (o o' : Options)
    (h : effExpiresIn o = effExpiresIn o') (req : Request) (now : Int)
    (fk : Bytes) :
    authenticate env o req now fk = authenticate env o' req now fk := by
  simp only [authenticate, generateBranch, validateBranch, jwtVerifyStr,
    jwtVerifyChecks, signJWT, h]

/-! ## Claims -/

/-- C1: the spec claims the issue/verify round trip succeeds and returns a
form equal to the submitted payload.  On the code it does not: the Issuer
passes `expiresIn` (here the default 300) to `setExpirationTime` as a number,
which jose uses as an absolute UNIX timestamp, so the token carries
`exp = 300` (year 1970).  Issuing the form `email=a@b.com` at UNIX time
1700000000 and immediately verifying the returned token with the returned key
fails with jose's `JWTExpired` (the `exp ≤ now - tolerance` check), instead of
succeeding with the original form. -/
theorem roundtrip_c1_code_bug :
    authenticate envC1 {} ⟨none, none, some [("email", "a@b.com")]⟩
        1700000000 [0]
      = .ok (.generate [("email", "a@b.com")] "tok" "k64") ∧
    authenticate envC1 {} ⟨some "tok", some "k64", none⟩ 1700000000 []
      = .error (.jose .expired) := by decide

/-- C2: the spec claims a token issued at `issuedAt` with `expiresIn = E`
verifies successfully at `issuedAt + E + 10 - 1`.  On the code it does not:
because `setExpirationTime` received `E` as an absolute timestamp, the token
issued at 1000000 with `E = 300` carries `exp = 300`, and verification at
1000309 (`issuedAt + E + tolerance - 1`) fails with `JWTExpired` — as does
verification at 1000311, so every point of the claimed boundary fails. -/
theorem expiry_boundary_c2_code_bug :
    authenticate envC2 ⟨some 300⟩ ⟨some "tok", some "k64", none⟩ 1000309 []
      = .error (.jose .expired) ∧
    authenticate envC2 ⟨some 300⟩ ⟨some "tok", some "k64", none⟩ 1000311 []
      = .error (.jose .expired) := by decide

/-- C3: in Verifier mode (both query parameters truthy), every outcome that
`authenticate` hands to the caller's verification callback is the
`ValidateOptions` shape, which carries no `key` field. -/
theorem no_key_leakage_c3 (env : JoseEnv) (opts : Options) (req : Request)
    (now : Int) (fk : Bytes) (o : VerifyOptions)
    (htok : truthy req.tokenParam = true) (hkey : truthy req.keyParam = true)
    (h : authenticate env opts req now fk = .ok o) :
    hasKeyField o = false := by
  have hv : validateBranch env opts (req.tokenParam.getD "")
      (req.keyParam.getD "") now = .ok o := by
    rw [← h]; simp [authenticate, htok, hkey]
  unfold validateBranch at hv
  cases hres : jwtVerifyStr env (req.tokenParam.getD "")
      (env.b64urlDecode (req.keyParam.getD "")) now opts with
  | error e => rw [hres] at hv; exact absurd hv (by simp)
  | ok p =>
      rw [hres] at hv
      have : VerifyOptions.validate p (req.tokenParam.getD "") = o := by
        simpa using hv
      rw [← this]
      rfl

/-- C3 witness: `authenticate` on a concrete verifiable request hands the
callback a keyless outcome. -/
theorem no_key_leakage_c3_witness :
    hasKeyField (.validate [("email", .str "a@b.com"), ("iat", .num 0),
      ("exp", .num 300)] "tok") = false :=
  no_key_leakage_c3 env0 {} ⟨some "tok", some "k64", none⟩ 0 []
    (.validate [("email", .str "a@b.com"), ("iat", .num 0),
      ("exp", .num 300)] "tok")
    (by decide) (by decide) (by decide)

/-- C4: mode dispatch.  A truthy `token` with a non-truthy `key` fails with
the missing-key error and a non-truthy `token` with a truthy `key` fails with
the missing-token error, in both cases before either branch runs (the result
is an error, so the callback is never invoked); with both non-truthy the
Issuer branch runs, and with both truthy the Verifier branch runs. -/
theorem mode_dispatch_c4 (env : JoseEnv) (opts : Options) (req : Request)
    (now : Int) (fk : Bytes) :
    (truthy req.tokenParam = true → truthy req.keyParam = false →
      authenticate env opts req now fk = .error .missingKey) ∧
    (truthy req.tokenParam = false → truthy req.keyParam = true →
      authenticate env opts req now fk = .error .missingToken) ∧
    (truthy req.tokenParam = false → truthy req.keyParam = false →
      authenticate env opts req now fk
        = generateBranch env opts req.body now fk) ∧
    (truthy req.tokenParam = true → truthy req.keyParam = true →
      authenticate env opts req now fk
        = validateBranch env opts (req.tokenParam.getD "")
            (req.keyParam.getD "") now) := by
  refine ⟨?_, ?_, ?_, ?_⟩ <;> intro h1 h2 <;> simp [authenticate, h1, h2]

/-- C4 witness: the four dispatch cases at concrete requests. -/
theorem mode_dispatch_c4_witness :
    authenticate env0 {} ⟨some "t", none, none⟩ 0 [] = .error .missingKey ∧
    authenticate env0 {} ⟨none, some "k", none⟩ 0 [] = .error .missingToken ∧
    authenticate env0 {} ⟨none, none, some []⟩ 0 []
      = generateBranch env0 {} (some []) 0 [] ∧
    authenticate env0 {} ⟨some "tok", some "k64", none⟩ 5 []
      = validateBranch env0 {} "tok" "k64" 5 :=
  ⟨(mode_dispatch_c4 env0 {} ⟨some "t", none, none⟩ 0 []).1
      (by decide) (by decide),
   (mode_dispatch_c4 env0 {} ⟨none, some "k", none⟩ 0 []).2.1
      (by decide) (by decide),
   (mode_dispatch_c4 env0 {} ⟨none, none, some []⟩ 0 []).2.2.1
      (by decide) (by decide),
   (mode_dispatch_c4 env0 {} ⟨some "tok", some "k64", none⟩ 5 []).2.2.2
      (by decide) (by decide)⟩

/-- C5: verifying a token issued with key bytes `kIssue` using any key string
that decodes to different bytes fails with the signature-verification error
(the JWS check runs before any timing check), so the callback is never
invoked. -/
theorem key_mismatch_c5 (env : JoseEnv) (optsI optsV : Options)
    (form : FormData) (tIssued tNow : Int) (kIssue kAlt fk : Bytes)
    (s ks : String) (body : Option FormData)
    (hs : s ≠ "") (hks : ks ≠ "")
    (hparse : env.parse s = some (signJWT form tIssued optsI kIssue))
    (hdec : env.b64urlDecode ks = kAlt)
    (hne : kAlt ≠ kIssue) :
    authenticate env optsV ⟨some s, some ks, body⟩ tNow fk
      = .error (.jose .signatureVerificationFailed) := by
  have htok : truthy (some s) = true := by simp [truthy, hs]
  have hkey : truthy (some ks) = true := by simp [truthy, hks]
  have hsig : (signJWT form tIssued optsI kIssue).sig
      ≠ hmacSign kAlt (signJWT form tIssued optsI kIssue).payload := by
    simp only [signJWT, hmacSign]
    intro hkk
    exact hne (congrArg Prod.fst hkk).symm
  simp [authenticate, htok, hkey, validateBranch, jwtVerifyStr, hparse, hdec,
    jwtVerifyChecks, hsig]

/-- C5 witness: the token of `env0` (signed with bytes `[0]`) verified with
the key string `"bad"` (decoding to `[9]`) fails the signature check. -/
theorem key_mismatch_c5_witness :
    authenticate env0 {} ⟨some "tok", some "bad", none⟩ 0 []
      = .error (.jose .signatureVerificationFailed) :=
  key_mismatch_c5 env0 {} {} [("email", "a@b.com")] 0 0 [0] [9] []
    "tok" "bad" none (by decide) (by decide) (by decide) (by decide)
    (by decide)

/-- C6 counterexample: the claim says every verification-time failure is a
single undifferentiated error whose content does not reveal the failed check.
On the code, an expired token and a wrong key produce two distinguishable
errors (jose's `JWTExpired` versus `JWSSignatureVerificationFailed`,
propagated unwrapped). -/
theorem uniform_failure_c6_counterexample :
    authenticate env0 {} ⟨some "tok", some "k64", none⟩ 1000 []
      = .error (.jose .expired) ∧
    authenticate env0 {} ⟨some "tok", some "bad", none⟩ 1000 []
      = .error (.jose .signatureVerificationFailed) ∧
    (AuthError.jose .expired ≠ AuthError.jose .signatureVerificationFailed)
    := by decide

/-- C6 amended: every verification-time failure makes `authenticate` fail
without invoking the callback, but the error is the underlying jose error,
which identifies the failed check (bad signature, expired, malformed, ...)
rather than being a single undifferentiated failure. -/
theorem differentiated_failure_c6_amended (env : JoseEnv) (opts : Options)
    (req : Request) (now : Int) (fk : Bytes) (e : JoseError)
    (htok : truthy req.tokenParam = true) (hkey : truthy req.keyParam = true)
    (hfail : jwtVerifyStr env (req.tokenParam.getD "")
      (env.b64urlDecode (req.keyParam.getD "")) now opts = .error e) :
    authenticate env opts req now fk = .error (.jose e) := by
  simp [authenticate, htok, hkey, validateBranch, hfail]

/-- C6 amended witness: an expired token propagates jose's expiry error. -/
theorem differentiated_failure_c6_witness :
    authenticate env0 {} ⟨some "tok", some "k64", none⟩ 2000 []
      = .error (.jose .expired) :=
  differentiated_failure_c6_amended env0 {}
    ⟨some "tok", some "k64", none⟩ 2000 [] .expired
    (by decide) (by decide) (by decide)

/-- C7 counterexample: the claim says the form handed to the callback in
Verifier mode consists of exactly the original form fields with the timing
claims excluded.  On the code, the verified payload is passed through
unchanged, so for the token of `env0` (form `email=a@b.com`) the callback
receives a form that still contains the `iat` and `exp` claims and therefore
differs from the bare original fields. -/
theorem validated_form_c7_counterexample :
    authenticate env0 {} ⟨some "tok", some "k64", none⟩ 5 []
      = .ok (.validate [("email", .str "a@b.com"), ("iat", .num 0),
          ("exp", .num 300)] "tok") ∧
    getClaim [("email", ClaimVal.str "a@b.com"), ("iat", .num 0),
      ("exp", .num 300)] "iat" = some (.num 0) ∧
    ([("email", ClaimVal.str "a@b.com"), ("iat", .num 0), ("exp", .num 300)]
      : Payload) ≠ [("email", ClaimVal.str "a@b.com")] := by decide

/-- C7 amended: on successful verification the callback receives the verified
payload itself — the original form fields together with the timing claims
`iat` and `exp` (which overwrite any same-named form field), every other
field unchanged — and the token string presented in the request. -/
theorem validated_form_c7_amended (env : JoseEnv) (optsI optsV : Options)
    (form : FormData) (tIssued tNow : Int) (kIssue fk : Bytes)
    (s ks : String) (body : Option FormData) (p : Payload)
    (hs : s ≠ "") (hks : ks ≠ "")
    (hparse : env.parse s = some (signJWT form tIssued optsI kIssue))
    (hok : jwtVerifyStr env s (env.b64urlDecode ks) tNow optsV = .ok p) :
    authenticate env optsV ⟨some s, some ks, body⟩ tNow fk
      = .ok (.validate p s) ∧
    p = setClaim (setClaim (fromEntries form) "iat" (.num tIssued)) "exp"
        (.num (effExpiresIn optsI)) ∧
    (∀ c, c ≠ "iat" → c ≠ "exp" →
      getClaim p c = getClaim (fromEntries form) c) := by
  have htok : truthy (some s) = true := by simp [truthy, hs]
  have hkey : truthy (some ks) = true := by simp [truthy, hks]
  have hpayload : p = (signJWT form tIssued optsI kIssue).payload := by
    unfold jwtVerifyStr at hok
    rw [hparse] at hok
    exact jwtVerifyChecks_ok hok
  refine ⟨?_, ?_, ?_⟩
  · simp [authenticate, htok, hkey, validateBranch, hok]
  · rw [hpayload]; rfl
  · intro c hciat hcexp
    rw [hpayload]
    show getClaim (setClaim (setClaim (fromEntries form) "iat" (.num tIssued))
      "exp" (.num (effExpiresIn optsI))) c = getClaim (fromEntries form) c
    rw [getClaim_setClaim_ne _ _ _ _ hcexp, getClaim_setClaim_ne _ _ _ _ hciat]

/-- C7 amended witness: concrete successful verification delivering the
payload with its timing claims and the original token string. -/
theorem validated_form_c7_witness :
    authenticate env0 {} ⟨some "tok", some "k64", none⟩ 3 []
      = .ok (.validate jwt0.payload "tok") ∧
    getClaim jwt0.payload "email" = getClaim (fromEntries
      [("email", "a@b.com")]) "email" :=
  have h := validated_form_c7_amended env0 {} {} [("email", "a@b.com")] 0 3
    [0] [] "tok" "k64" none jwt0.payload (by decide) (by decide) (by decide)
    (by decide)
  ⟨h.1, h.2.2 "email" (by decide) (by decide)⟩

/-- C8: the spec claims the signed token's payload carries
`expiry = now + expiresIn` (default 300).  On the code, `setExpirationTime`
receives the number `expiresIn || 300` and jose uses it as the absolute `exp`
value: issuing at time 1000 with the default configuration yields `exp = 300`,
not `1000 + 300`.  (The payload otherwise is exactly the decoded form fields
with `iat = now`, and the default is 300.) -/
theorem issuer_construction_c8_code_bug :
    (signJWT [("email", "a@b.com")] 1000 {} [0]).payload
      = [("email", .str "a@b.com"), ("iat", .num 1000), ("exp", .num 300)] ∧
    getNum (signJWT [("email", "a@b.com")] 1000 {} [0]).payload "exp"
      = some 300 ∧
    (some (300 : Int) ≠ some (1000 + 300 : Int)) := by decide

/-- C9: a query parameter that is present with an empty-string value is falsy
in the dispatcher, so it behaves exactly as an absent parameter;
`?token=abc&key=` fails with the missing-key error, and `?token=&key=` runs
the Issuer branch. -/
theorem empty_param_as_absent_c9 (env : JoseEnv) (opts : Options)
    (req : Request) (now : Int) (fk : Bytes) :
    (authenticate env opts { req with tokenParam := some "" } now fk
      = authenticate env opts { req with tokenParam := none } now fk) ∧
    (authenticate env opts { req with keyParam := some "" } now fk
      = authenticate env opts { req with keyParam := none } now fk) ∧
    (req.tokenParam = some "abc" → req.keyParam = some "" →
      authenticate env opts req now fk = .error .missingKey) ∧
    (req.tokenParam = some "" → req.keyParam = some "" →
      authenticate env opts req now fk
        = generateBranch env opts req.body now fk) := by
  refine ⟨?_, ?_, ?_, ?_⟩
  · simp [authenticate, truthy]
  · simp [authenticate, truthy]
  · intro h1 h2; simp [authenticate, truthy, h1, h2]
  · intro h1 h2; simp [authenticate, truthy, h1, h2]

/-- C9 witness: the two concrete URLs of the claim. -/
theorem empty_param_as_absent_c9_witness :
    authenticate env0 {} ⟨some "abc", some "", none⟩ 0 []
      = .error .missingKey ∧
    authenticate env0 {} ⟨some "", some "", some []⟩ 0 []
      = generateBranch env0 {} (some []) 0 [] :=
  ⟨(empty_param_as_absent_c9 env0 {} ⟨some "abc", some "", none⟩ 0 []).2.2.1
      rfl rfl,
   (empty_param_as_absent_c9 env0 {} ⟨some "", some "", some []⟩ 0 []).2.2.2
      rfl rfl⟩

/-- C10: a configured `expiresIn` of 0 is falsy for JS `||`, so both the
Issuer and the Verifier fall back to the default: `authenticate` behaves
identically with `expiresIn: 0` and with `expiresIn` unset, the effective
value is 300 in both cases, and the configuration is not rejected — a token
issued under it can still verify successfully (shown at a concrete time), so
it does not make every token unverifiable beyond what the default does. -/
theorem expiresIn_zero_c10 (env : JoseEnv) (req : Request) (now : Int)
    (fk : Bytes) :
    (authenticate env ⟨some 0⟩ req now fk
      = authenticate env ⟨none⟩ req now fk) ∧
    effExpiresIn ⟨some 0⟩ = 300 ∧ effExpiresIn ⟨none⟩ = 300 ∧
    authenticate env0 ⟨some 0⟩ ⟨some "tok", some "k64", none⟩ 5 []
      = .ok (.validate [("email", .str "a@b.com"), ("iat", .num 0),
          ("exp", .num 300)] "tok") := by
  refine ⟨authenticate_eff_congr env ⟨some 0⟩ ⟨none⟩ rfl req now fk,
    rfl, rfl, by decide⟩

end MagicLink
